import Mathlib

/-!
Shallow embedding of the bingo-card-server backend (database.js: the
SQLite schema, prepared statements, and Express route handlers).

Tables are modelled as lists of row structures held in a `DB` record;
each prepared statement becomes a pure function over `DB`, and each
route handler becomes a function returning `Except Nat α` (the `Nat`
is the HTTP status code sent via `res.status(...)`) together with the
updated `DB` when the handler writes.

SQLite's unordered result sets are modelled as lists in rowid
(insertion) order, which matches `ORDER BY created_at ASC` for rows
whose `created_at` defaults to the insertion time; `ORDER BY ... DESC`
reorderings are irrelevant to the membership properties proved here.
-/

set_option maxHeartbeats 1000000

/-- Row of `users` (database.js:342-349 plus the `username` and
`is_admin` columns added by the ALTER TABLE migrations at 353-383). -/
structure User where
  id : Nat
  name : String
  username : Option String
  email : String
  password : String
  is_admin : Bool
  created_at : Nat
deriving DecidableEq, Repr

/-- Row of `bingo_cards` (database.js:386-397). -/
structure Card where
  id : Nat
  user_id : Nat
  size : Nat
  grid_data : String
  completed_data : String
  created_at : Nat
  updated_at : Nat
deriving DecidableEq, Repr

/-- Status column of `friendships`: CHECK(status IN ('pending','accepted')). -/
inductive FriendStatus where
  | pending
  | accepted
deriving DecidableEq, Repr

/-- Row of `friendships` (database.js:401-412), UNIQUE(user1_id, user2_id). -/
structure Friendship where
  id : Nat
  user1_id : Nat
  user2_id : Nat
  status : FriendStatus
deriving DecidableEq, Repr

/-- Row of `comments` (database.js:416-429). `row`/`col` carry no bounds
check against any card, matching the schema (plain INTEGER columns). -/
structure Comment where
  id : Nat
  author_id : Nat
  card_owner_id : Nat
  row : Int
  col : Int
  text : String
  is_private : Bool
deriving DecidableEq, Repr

/-- Row of `reactions` (database.js:433-444), UNIQUE(comment_id, user_id, emoji). -/
structure Reaction where
  id : Nat
  comment_id : Nat
  user_id : Nat
  emoji : String
deriving DecidableEq, Repr

/-- Row of `groups` (database.js:448-456). Named `GroupRow` because
`Group` is taken by Mathlib's algebraic structure. -/
structure GroupRow where
  id : Nat
  name : String
  creator_id : Nat
deriving DecidableEq, Repr

/-- Role column of `group_members`: CHECK(role IN ('admin','member')). -/
inductive Role where
  | admin
  | member
deriving DecidableEq, Repr

/-- Status column of `group_members`: CHECK(status IN ('pending','accepted')). -/
inductive MemberStatus where
  | pending
  | accepted
deriving DecidableEq, Repr

/-- Row of `group_members` (database.js:460-472), UNIQUE(group_id, user_id). -/
structure GroupMember where
  id : Nat
  group_id : Nat
  user_id : Nat
  role : Role
  status : MemberStatus
deriving DecidableEq, Repr

/-- Row of `group_comments` (database.js:476-486). -/
structure GroupComment where
  id : Nat
  group_id : Nat
  user_id : Nat
  text : String
deriving DecidableEq, Repr

/-- Row of `group_comment_reactions` (database.js:490-500). -/
structure GroupCommentReaction where
  id : Nat
  group_comment_id : Nat
  user_id : Nat
  emoji : String
deriving DecidableEq, Repr

/-- The whole SQLite database: one list per table, in rowid order. -/
structure DB where
  users : List User
  cards : List Card
  friendships : List Friendship
  comments : List Comment
  reactions : List Reaction
  groups : List GroupRow
  group_members : List GroupMember
  group_comments : List GroupComment
  group_comment_reactions : List GroupCommentReaction
deriving DecidableEq, Repr

namespace userQueries

/-- Statement `SELECT * FROM users WHERE email = ?` (database.js:551). `.get` returns
the first matching row. -/
def findByEmail (db : DB) (email : String) : Option User :=
  db.users.find? (fun u => decide (u.email = email))

/-- Statement `SELECT * FROM users WHERE username = ?` (database.js:561; only
prepared when the `username` column exists). SQL `=` is false on NULL,
so rows with no username never match. -/
def findByUsername (db : DB) (username : String) : Option User :=
  db.users.find? (fun u => decide (u.username = some username))

/-- Statement `SELECT ... FROM users WHERE id = ?` (database.js:552). -/
def findById (db : DB) (id : Nat) : Option User :=
  db.users.find? (fun u => decide (u.id = id))

end userQueries

namespace cardQueries

/-- Statement `SELECT * FROM bingo_cards WHERE user_id = ?` (database.js:573). -/
def findByUserId (db : DB) (userId : Nat) : Option Card :=
  db.cards.find? (fun c => decide (c.user_id = userId))

end cardQueries

namespace friendshipQueries

/-- Statement `SELECT * FROM friendships WHERE ((user1_id = ? AND user2_id = ?) OR
(user1_id = ? AND user2_id = ?))` (database.js:605-608). The four
positional parameters are kept exactly as in the SQL; `.get` returns the
first matching row in rowid order. -/
def checkFriendship (db : DB) (p1 p2 p3 p4 : Nat) : Option Friendship :=
  db.friendships.find? (fun f =>
    (decide (f.user1_id = p1) && decide (f.user2_id = p2)) ||
    (decide (f.user1_id = p3) && decide (f.user2_id = p4)))

end friendshipQueries

/-- The accepted-friend check every handler inlines as
`!friendship || friendship.status !== 'accepted'` after calling
`checkFriendship(a, b, b, a)` (e.g. database.js:1097-1101); named
`isAcceptedFriend` after spec section 4.2. -/
def isAcceptedFriend (db : DB) (a b : Nat) : Bool :=
  match friendshipQueries.checkFriendship db a b b a with
  | none => false
  | some f => decide (f.status = FriendStatus.accepted)

/-- Payload of a verified JWT: `jwt.sign({ userId, email }, ...)`
(database.js:854). -/
structure TokenPayload where
  userId : Nat
  email : String
deriving DecidableEq, Repr

/-- JS `String.prototype.split(' ')`: splits at every space, keeping
empty segments ("a  b" gives ["a","","b"], "Bearer " gives
["Bearer",""]). -/
def splitSpacesAux : List Char → List Char → List (List Char)
  | [], acc => [acc.reverse]
  | ch :: rest, acc =>
    if ch = ' ' then acc.reverse :: splitSpacesAux rest []
    else splitSpacesAux rest (ch :: acc)

/-- Expression `authHeader && authHeader.split(' ')[1]` (database.js:800-801):
the token is the second space-separated part of the Authorization
header, if any. -/
def extractToken (authHeader : Option String) : Option String :=
  match authHeader with
  | none => none
  | some h => ((splitSpacesAux h.data []).get? 1).map String.mk

/-- Middleware `authenticateToken` (database.js:799-814). `jwt.verify`
is external (spec section 1 scopes token primitives out); it is passed
in as a function returning the decoded payload on success and `none`
when the token is malformed or expired. A missing/empty token gives
401; a token `jwt.verify` rejects gives 403; otherwise the payload is
attached as `req.user`. -/
def authenticateToken (authHeader : Option String)
    (verify : String → Option TokenPayload) : Except Nat TokenPayload :=
  match extractToken authHeader with
  | none => Except.error 401
  | some t =>
    if t = "" then Except.error 401
    else
      match verify t with
      | none => Except.error 403
      | some user => Except.ok user

/-- GET /api/cards/:userId (database.js:1092-1124; identical in
server.js:231-263): friendship is checked first and must be accepted
(403 otherwise), then the friend's card is looked up (404 when
absent). -/
def getFriendCard (db : DB) (requesterId friendId : Nat) : Except Nat Card :=
  let friendship := friendshipQueries.checkFriendship db requesterId friendId friendId requesterId
  if (match friendship with
      | none => true
      | some f => decide (f.status ≠ FriendStatus.accepted)) then
    Except.error 403
  else
    match cardQueries.findByUserId db friendId with
    | none => Except.error 404
    | some card => Except.ok card

/-- POST /api/friends/request (database.js:1129-1176). The target is
resolved by username first (when the optional `username` column and its
query exist, tracked by `hasUsernameCol`, database.js:1139-1145), then
by email; self-requests give 400; an existing friendship row in either
direction gives 409 whatever its status; otherwise a pending row is
inserted (`newId` is the fresh rowid). -/
def sendFriendRequest (db : DB) (userId : Nat)
    (friendEmail friendUsername : Option String) (hasUsernameCol : Bool)
    (newId : Nat) : Except Nat Unit × DB :=
  if friendEmail = none ∧ friendUsername = none then
    (Except.error 400, db)
  else
    let friend0 : Option User :=
      match friendUsername, hasUsernameCol with
      | some uname, true => userQueries.findByUsername db uname
      | _, _ => none
    let friend : Option User :=
      match friend0, friendEmail with
      | none, some e => userQueries.findByEmail db e
      | f, _ => f
    match friend with
    | none => (Except.error 404, db)
    | some fr =>
      if fr.id = userId then (Except.error 400, db)
      else
        match friendshipQueries.checkFriendship db userId fr.id fr.id userId with
        | some _ => (Except.error 409, db)
        | none =>
          (Except.ok (),
           { db with friendships :=
               db.friendships ++ [⟨newId, userId, fr.id, FriendStatus.pending⟩] })

namespace commentQueries

/-- Statement `SELECT c.*, u.name FROM comments c JOIN users u ... WHERE
c.card_owner_id = ?` (database.js:617-623). The join only adds the
author name, which the privacy filter never consults, so the plain
rows are returned here. -/
def getByCard (db : DB) (cardOwnerId : Nat) : List Comment :=
  db.comments.filter (fun c => decide (c.card_owner_id = cardOwnerId))

end commentQueries

/-- GET /api/comments/:cardOwnerId (database.js:1328-1360): viewing
someone else's card requires an accepted friendship (403 otherwise);
the fetched comments are then post-filtered — on one's own card all
comments pass, on a friend's card a comment passes iff it is public or
authored by the requester. (The per-task route at database.js:1291-1325
applies the identical filter to the row/col-restricted query.) -/
def getCardComments (db : DB) (requesterId cardOwnerId : Nat) :
    Except Nat (List Comment) :=
  if cardOwnerId ≠ requesterId ∧ isAcceptedFriend db requesterId cardOwnerId = false then
    Except.error 403
  else
    let comments := commentQueries.getByCard db cardOwnerId
    Except.ok (comments.filter (fun c =>
      decide (cardOwnerId = requesterId) ||
      (!c.is_private || decide (c.author_id = requesterId))))

/-- POST /api/reactions (database.js:1383-1405). `!commentId || !emoji`
is the JS falsy check (0 and "" are falsy). The INSERT throws on the
UNIQUE(comment_id, user_id, emoji) constraint, which the handler maps
to 409; a FOREIGN KEY failure (nonexistent comment or user) is
rethrown and caught by the outer handler as 500. -/
def addReaction (db : DB) (userId commentId : Nat) (emoji : String)
    (newId : Nat) : Except Nat Unit × DB :=
  if commentId = 0 ∨ emoji = "" then (Except.error 400, db)
  else if db.reactions.any (fun r =>
      decide (r.comment_id = commentId ∧ r.user_id = userId ∧ r.emoji = emoji)) then
    (Except.error 409, db)
  else if !(db.comments.any (fun c => decide (c.id = commentId)) &&
            db.users.any (fun u => decide (u.id = userId))) then
    (Except.error 500, db)
  else
    (Except.ok (),
     { db with reactions := db.reactions ++ [⟨newId, commentId, userId, emoji⟩] })

namespace reactionQueries

/-- Statement `SELECT r.*, u.name FROM reactions r JOIN users u ON r.user_id = u.id
WHERE r.comment_id = ? ORDER BY created_at ASC` (database.js:640-646):
each reaction on the comment paired with its reactor's name (the inner
join drops a reaction only if its user row is missing, which the
foreign key forbids). -/
def getByComment (db : DB) (commentId : Nat) : List (Reaction × String) :=
  (db.reactions.filter (fun r => decide (r.comment_id = commentId))).filterMap
    (fun r => (db.users.find? (fun u => decide (u.id = r.user_id))).map
      (fun u => (r, u.name)))

end reactionQueries

/-- The `grouped[reaction.emoji].push(reaction.user_name)` accumulation
(database.js:1437-1442): JS object keys keep insertion order, so the
grouped result is an association list from emoji to names in order. -/
def insertGrouped : List (String × List String) → String → String →
    List (String × List String)
  | [], e, n => [(e, [n])]
  | (e', ns) :: rest, e, n =>
    if e' = e then (e', ns ++ [n]) :: rest
    else (e', ns) :: insertGrouped rest e n

/-- GET /api/reactions/:commentId (database.js:1430-1449): after token
authentication the reactions are fetched and grouped by emoji; the
requester id from the token is never consulted. -/
def getReactions (db : DB) (requesterId commentId : Nat) :
    Except Nat (List (String × List String)) :=
  let _ := requesterId
  Except.ok ((reactionQueries.getByComment db commentId).foldl
    (fun acc rn => insertGrouped acc rn.1.emoji rn.2) [])

/-- POST /api/cards (database.js:1018-1045). `!size || !grid ||
!completed` is the JS falsy check. The serialized `grid`/`completed`
payloads are opaque strings (`JSON.stringify`), absent payload parts
are `none`. When a card row exists, `cardQueries.update`
(database.js:572) runs `UPDATE bingo_cards SET grid_data = ?,
completed_data = ?, updated_at = CURRENT_TIMESTAMP WHERE user_id = ?`;
otherwise `cardQueries.create` inserts a fresh row with `size`. -/
def saveCard (db : DB) (userId size : Nat) (grid completed : Option String)
    (now newId : Nat) : Except Nat Unit × DB :=
  if size = 0 ∨ grid = none ∨ completed = none then (Except.error 400, db)
  else
    let gridData := grid.getD ""
    let completedData := completed.getD ""
    match cardQueries.findByUserId db userId with
    | some _ =>
      (Except.ok (),
       { db with cards := db.cards.map (fun c =>
           if c.user_id = userId then
             { c with grid_data := gridData, completed_data := completedData,
                      updated_at := now }
           else c) })
    | none =>
      (Except.ok (),
       { db with cards :=
           db.cards ++ [⟨newId, userId, size, gridData, completedData, now, now⟩] })

namespace groupQueries

/-- Statement `SELECT * FROM group_members WHERE group_id = ? AND user_id = ?`
(database.js:674). -/
def getMember (db : DB) (groupId userId : Nat) : Option GroupMember :=
  db.group_members.find? (fun m => decide (m.group_id = groupId ∧ m.user_id = userId))

/-- Statement `SELECT gm.*, ... FROM group_members gm JOIN users u ... WHERE
gm.group_id = ? AND gm.status = 'accepted'` (database.js:676-682):
only accepted memberships count as members. -/
def getGroupMembers (db : DB) (groupId : Nat) : List GroupMember :=
  db.group_members.filter (fun m =>
    decide (m.group_id = groupId ∧ m.status = MemberStatus.accepted))

/-- Statement `DELETE FROM group_members WHERE group_id = ? AND user_id = ?`
(database.js:692). -/
def removeMember (db : DB) (groupId userId : Nat) : DB :=
  { db with group_members := db.group_members.filter (fun m =>
      !decide (m.group_id = groupId ∧ m.user_id = userId)) }

end groupQueries

/-- Statement `DELETE FROM groups WHERE id = ?` (database.js:669) with the
ON DELETE CASCADE foreign keys: the group's memberships and comments
go with it, and reactions on the removed group comments cascade in
turn. -/
def deleteGroup (db : DB) (groupId : Nat) : DB :=
  let removedComments := db.group_comments.filter (fun gc => decide (gc.group_id = groupId))
  { db with
    groups := db.groups.filter (fun g => !decide (g.id = groupId)),
    group_members := db.group_members.filter (fun m => !decide (m.group_id = groupId)),
    group_comments := db.group_comments.filter (fun gc => !decide (gc.group_id = groupId)),
    group_comment_reactions := db.group_comment_reactions.filter (fun r =>
      !(removedComments.any (fun gc => decide (gc.id = r.group_comment_id)))) }

/-- DELETE /api/groups/:groupId/leave (database.js:1694-1729). A
non-member gets 404. An admin whose group has exactly one (accepted)
admin and more than one (accepted) member is blocked with status 400
("Cannot leave: you are the only admin..."). Otherwise the membership
row is deleted, and the group itself is deleted when no accepted
members remain. The code computes `members`/`adminCount` only inside
the `role === 'admin'` branch and also fetches the group row without
using it; both reads are pure, so hoisting them is behaviourally
identical. -/
def leaveGroup (db : DB) (userId groupId : Nat) : Except Nat Unit × DB :=
  match groupQueries.getMember db groupId userId with
  | none => (Except.error 404, db)
  | some membership =>
    let members := groupQueries.getGroupMembers db groupId
    let adminCount := (members.filter (fun m => decide (m.role = Role.admin))).length
    if membership.role = Role.admin ∧ adminCount = 1 ∧ members.length > 1 then
      (Except.error 400, db)
    else
      let db1 := groupQueries.removeMember db groupId userId
      let remaining := groupQueries.getGroupMembers db1 groupId
      if remaining.length = 0 then (Except.ok (), deleteGroup db1 groupId)
      else (Except.ok (), db1)

namespace adminQueries

/-- Statement `SELECT COUNT(*) FROM users WHERE is_admin = 0` (database.js:742). -/
def getTotalUsers (db : DB) : Nat :=
  (db.users.filter (fun u => u.is_admin = false)).length

/-- Statement `SELECT COUNT(*) FROM bingo_cards` (database.js:743). -/
def getTotalCards (db : DB) : Nat := db.cards.length

/-- Statement `SELECT COUNT(*) FROM groups` (database.js:744). -/
def getTotalGroups (db : DB) : Nat := db.groups.length

/-- Statement `SELECT COUNT(*) FROM comments` (database.js:745). -/
def getTotalComments (db : DB) : Nat := db.comments.length

/-- Statement `SELECT COUNT(*) FROM group_comments` (database.js:746). -/
def getTotalGroupComments (db : DB) : Nat := db.group_comments.length

end adminQueries

/-- The `analytics` object of GET /api/admin/analytics
(database.js:1926-1948), after the admin gate. `recentUsers` (a
LIMIT-10 listing) is also in the response but carries no count and is
not modelled. -/
structure Analytics where
  totalUsers : Nat
  totalCards : Nat
  totalGroups : Nat
  totalComments : Nat
deriving DecidableEq, Repr

/-- GET /api/admin/analytics response assembly (database.js:1935-1943):
`totalComments` is the sum of the card-comment and group-comment
counts. -/
def adminAnalytics (db : DB) : Analytics :=
  { totalUsers := adminQueries.getTotalUsers db,
    totalCards := adminQueries.getTotalCards db,
    totalGroups := adminQueries.getTotalGroups db,
    totalComments := adminQueries.getTotalComments db + adminQueries.getTotalGroupComments db }

/-! ## Helper lemmas and spec-side predicates -/

/-- Lemma: `find?` only looks at the truth value of the predicate. -/
theorem find?_ext {α : Type} (p q : α → Bool) (h : ∀ x, p x = q x) :
    ∀ l : List α, l.find? p = l.find? q := by
  intro l
  induction l with
  | nil => rfl
  | cons a t ih =>
    simp only [List.find?]
    rw [h a]
    cases q a <;> simp [ih]

/-- Spec-side reading of "a friendship row for the unordered pair
{a, b}": the row links a and b in either column order. -/
def matchesPair (f : Friendship) (a b : Nat) : Prop :=
  (f.user1_id = a ∧ f.user2_id = b) ∨ (f.user1_id = b ∧ f.user2_id = a)

instance (f : Friendship) (a b : Nat) : Decidable (matchesPair f a b) := by
  unfold matchesPair
  infer_instance

/-- The Boolean predicate inside `checkFriendship db a b b a` decides
`matchesPair`. -/
theorem checkFriendship_pred_iff (f : Friendship) (a b : Nat) :
    ((decide (f.user1_id = a) && decide (f.user2_id = b)) ||
     (decide (f.user1_id = b) && decide (f.user2_id = a))) = true ↔
      matchesPair f a b := by
  simp [matchesPair]

/-! ## C2 — token verification statuses -/

/-- C2 counterexample: the claim says a malformed or expired bearer
token fails with Unauthorized (401), but a present-yet-rejected token
is answered with 403, not 401 (database.js:807-810). -/
theorem C2_counterexample :
    authenticateToken (some "Bearer xyz") (fun _ => none) = Except.error 403 ∧
    (Except.error 403 : Except Nat TokenPayload) ≠ Except.error 401 := by
  constructor
  · rfl
  · intro h
    simp at h

/-- C2 (amended): a missing token (absent header, or a header with no
second space-separated part) fails with 401 Unauthorized; a token that
`jwt.verify` rejects (malformed or expired) fails with 403; on success
the embedded payload — carrying the user id — is yielded for
downstream authorization. -/
theorem C2_token_auth_statuses (verify : String → Option TokenPayload) :
    (authenticateToken none verify = Except.error 401) ∧
    (∀ h : String, extractToken (some h) = none →
       authenticateToken (some h) verify = Except.error 401) ∧
    (∀ h t, extractToken (some h) = some t → t = "" →
       authenticateToken (some h) verify = Except.error 401) ∧
    (∀ h t, extractToken (some h) = some t → t ≠ "" → verify t = none →
       authenticateToken (some h) verify = Except.error 403) ∧
    (∀ h t p, extractToken (some h) = some t → t ≠ "" → verify t = some p →
       authenticateToken (some h) verify = Except.ok p) := by
  refine ⟨rfl, ?_, ?_, ?_, ?_⟩
  · intro h hx
    simp [authenticateToken, hx]
  · intro h t hx ht
    simp [authenticateToken, hx, ht]
  · intro h t hx ht hv
    simp [authenticateToken, hx, ht, hv]
  · intro h t p hx ht hv
    simp [authenticateToken, hx, ht, hv]

/-- C2 witness: a concrete verifier accepting exactly the token
"good" with payload user 7. -/
theorem C2_token_auth_statuses_witness :
    authenticateToken none (fun t => if t = "good" then some ⟨7, "ann@x.com"⟩ else none) =
      Except.error 401 ∧
    authenticateToken (some "Bearer bad")
      (fun t => if t = "good" then some ⟨7, "ann@x.com"⟩ else none) = Except.error 403 ∧
    authenticateToken (some "Bearer good")
      (fun t => if t = "good" then some ⟨7, "ann@x.com"⟩ else none) =
      Except.ok ⟨7, "ann@x.com"⟩ := by
  refine ⟨(C2_token_auth_statuses _).1, ?_, ?_⟩
  · exact (C2_token_auth_statuses _).2.2.2.1 "Bearer bad" "bad" rfl (by decide) rfl
  · exact (C2_token_auth_statuses _).2.2.2.2 "Bearer good" "good"
      ⟨7, "ann@x.com"⟩ rfl (by decide) rfl

/-! ## C5 — symmetry of the accepted-friend check -/

/-- C5: `isAcceptedFriend` is symmetric in its two arguments — the
`checkFriendship` WHERE clause matches the same rows with the
parameters in either order, so the first matching row (and hence the
status test) is identical; in particular once a row for the unordered
pair is accepted the check agrees regardless of argument order or of
which stored column holds which id. -/
theorem C5_isAcceptedFriend_symm (db : DB) (a b : Nat) :
    isAcceptedFriend db a b = isAcceptedFriend db b a := by
  unfold isAcceptedFriend friendshipQueries.checkFriendship
  rw [show List.find? (fun f =>
        decide (f.user1_id = a) && decide (f.user2_id = b) ||
        decide (f.user1_id = b) && decide (f.user2_id = a)) db.friendships =
      List.find? (fun f =>
        decide (f.user1_id = b) && decide (f.user2_id = a) ||
        decide (f.user1_id = a) && decide (f.user2_id = b)) db.friendships
    from find?_ext _ _ (fun f => Bool.or_comm _ _) db.friendships]

/-! ## C3 — friend-card access: Forbidden before NotFound -/

/-- C3: with at most one friendship row per unordered pair (the
uniqueness the friend-request handler maintains), a requester distinct
from the owner gets 403 whenever no accepted row links them — for
every possible cards table, i.e. before and independently of card
existence — and gets 404 exactly when an accepted row links them but
the owner has no card. -/
theorem C3_getFriendCard_forbidden_then_notFound (db : DB) (r o : Nat)
    (hro : r ≠ o)
    (huniq : ∀ f ∈ db.friendships, ∀ g ∈ db.friendships,
      matchesPair f r o → matchesPair g r o → f = g) :
    (¬ (∃ f ∈ db.friendships, matchesPair f r o ∧ f.status = FriendStatus.accepted) →
       ∀ cs : List Card, getFriendCard { db with cards := cs } r o = Except.error 403) ∧
    ((∃ f ∈ db.friendships, matchesPair f r o ∧ f.status = FriendStatus.accepted) →
       cardQueries.findByUserId db o = none →
       getFriendCard db r o = Except.error 404) := by
  constructor
  · intro hno cs
    unfold getFriendCard friendshipQueries.checkFriendship
    cases hfind : List.find? (fun f =>
        decide (f.user1_id = r) && decide (f.user2_id = o) ||
        decide (f.user1_id = o) && decide (f.user2_id = r)) db.friendships with
    | none => simp [hfind]
    | some f =>
      have hp := List.find?_some hfind
      have hmem := List.mem_of_find?_eq_some hfind
      have hmatch : matchesPair f r o := (checkFriendship_pred_iff f r o).mp hp
      have hstat : f.status ≠ FriendStatus.accepted := by
        intro hacc
        exact hno ⟨f, hmem, hmatch, hacc⟩
      simp [hfind, hstat]
  · rintro ⟨f, hmem, hmatch, hacc⟩ hcard
    unfold getFriendCard friendshipQueries.checkFriendship
    have hsome : (List.find? (fun f =>
        decide (f.user1_id = r) && decide (f.user2_id = o) ||
        decide (f.user1_id = o) && decide (f.user2_id = r)) db.friendships).isSome := by
      rw [List.find?_isSome]
      exact ⟨f, hmem, (checkFriendship_pred_iff f r o).mpr hmatch⟩
    obtain ⟨g, hg⟩ := Option.isSome_iff_exists.mp hsome
    have hgp := List.find?_some hg
    have hgmem := List.mem_of_find?_eq_some hg
    have hgf : g = f :=
      huniq g hgmem f hmem ((checkFriendship_pred_iff g r o).mp hgp) hmatch
    subst hgf
    simp [hg, hacc, hcard]

/-- C3 witness: user 1 and user 2 are accepted friends but user 2 has
no card (404); user 3 has no accepted row with user 1, so the request
is 403 whatever the cards table holds (here: empty). -/
theorem C3_getFriendCard_witness :
    getFriendCard
      ⟨[], [], [⟨1, 1, 2, FriendStatus.accepted⟩], [], [], [], [], [], []⟩ 1 2 =
      Except.error 404 ∧
    getFriendCard
      ⟨[], [], [⟨1, 1, 2, FriendStatus.accepted⟩], [], [], [], [], [], []⟩ 3 1 =
      Except.error 403 := by
  constructor
  · exact (C3_getFriendCard_forbidden_then_notFound
      ⟨[], [], [⟨1, 1, 2, FriendStatus.accepted⟩], [], [], [], [], [], []⟩ 1 2
      (by decide) (by decide)).2 (by decide) rfl
  · exact (C3_getFriendCard_forbidden_then_notFound
      ⟨[], [], [⟨1, 1, 2, FriendStatus.accepted⟩], [], [], [], [], [], []⟩ 3 1
      (by decide) (by decide)).1 (by decide) []

/-! ## C4 — private comments leak to no third party -/

/-- C4: a private comment by A on B's card is excluded from the list
returned to an accepted friend C (C distinct from both A and B), while
any list successfully returned to A, and the list returned to B, does
contain it. -/
theorem C4_private_comment_nonleakage (db : DB) (A B C : Nat) (cm : Comment)
    (hmem : cm ∈ db.comments) (hauth : cm.author_id = A)
    (howner : cm.card_owner_id = B) (hpriv : cm.is_private = true)
    (hCA : C ≠ A) (hCB : C ≠ B)
    (hacc : isAcceptedFriend db C B = true) :
    (∃ L, getCardComments db C B = Except.ok L ∧ cm ∉ L) ∧
    (∀ L, getCardComments db A B = Except.ok L → cm ∈ L) ∧
    (∀ L, getCardComments db B B = Except.ok L → cm ∈ L) := by
  have hmemByCard : cm ∈ commentQueries.getByCard db B :=
    List.mem_filter.mpr ⟨hmem, by simp [howner]⟩
  refine ⟨?_, ?_, ?_⟩
  · refine ⟨(commentQueries.getByCard db B).filter (fun c =>
        decide (B = C) || (!c.is_private || decide (c.author_id = C))), ?_, ?_⟩
    · unfold getCardComments
      rw [if_neg]
      intro ⟨_, hfalse⟩
      rw [hacc] at hfalse
      exact Bool.noConfusion hfalse
    · intro hin
      have hkeep := (List.mem_filter.mp hin).2
      simp only [hpriv, hauth, Bool.not_true, Bool.false_or, Bool.or_eq_true,
        decide_eq_true_eq] at hkeep
      rcases hkeep with h | h
      · exact hCB h.symm
      · exact hCA h.symm
  · intro L hok
    unfold getCardComments at hok
    split at hok
    · exact absurd hok (by simp)
    · have hL := Except.ok.inj hok
      subst hL
      refine List.mem_filter.mpr ⟨hmemByCard, ?_⟩
      simp [hauth]
  · intro L hok
    unfold getCardComments at hok
    split at hok
    · exact absurd hok (by simp)
    · have hL := Except.ok.inj hok
      subst hL
      refine List.mem_filter.mpr ⟨hmemByCard, ?_⟩
      simp

/-- C4 witness: the private comment with id 9 by user 1 on user 2's
card is withheld from accepted friend 3 and shown to 1 and 2. -/
theorem C4_private_comment_nonleakage_witness :
    (∃ L, getCardComments
        ⟨[], [], [⟨1, 1, 2, FriendStatus.accepted⟩, ⟨2, 3, 2, FriendStatus.accepted⟩],
         [⟨9, 1, 2, 0, 0, "secret", true⟩], [], [], [], [], []⟩ 3 2 =
        Except.ok L ∧ ⟨9, 1, 2, 0, 0, "secret", true⟩ ∉ L) ∧
    (∀ L, getCardComments
        ⟨[], [], [⟨1, 1, 2, FriendStatus.accepted⟩, ⟨2, 3, 2, FriendStatus.accepted⟩],
         [⟨9, 1, 2, 0, 0, "secret", true⟩], [], [], [], [], []⟩ 1 2 =
        Except.ok L → ⟨9, 1, 2, 0, 0, "secret", true⟩ ∈ L) ∧
    (∀ L, getCardComments
        ⟨[], [], [⟨1, 1, 2, FriendStatus.accepted⟩, ⟨2, 3, 2, FriendStatus.accepted⟩],
         [⟨9, 1, 2, 0, 0, "secret", true⟩], [], [], [], [], []⟩ 2 2 =
        Except.ok L → ⟨9, 1, 2, 0, 0, "secret", true⟩ ∈ L) :=
  C4_private_comment_nonleakage
    ⟨[], [], [⟨1, 1, 2, FriendStatus.accepted⟩, ⟨2, 3, 2, FriendStatus.accepted⟩],
     [⟨9, 1, 2, 0, 0, "secret", true⟩], [], [], [], [], []⟩ 1 2 3
    ⟨9, 1, 2, 0, 0, "secret", true⟩
    (by decide) rfl rfl rfl (by decide) (by decide) (by decide)

/-! ## C6 — duplicate friend requests are rejected -/

/-- C6: while any friendship row (pending or accepted — the schema's
CHECK admits no other status) links the pair in either column order, a
further friend request from either side is answered 409 and the
database is unchanged. Both directions follow by instantiating the
requester with either end of the pair. -/
theorem C6_duplicate_friend_request_conflict (db : DB) (A : Nat) (e : String)
    (uB : User) (hasUsernameCol : Bool) (newId : Nat)
    (hfind : userQueries.findByEmail db e = some uB)
    (hne : uB.id ≠ A)
    (hex : ∃ f ∈ db.friendships, matchesPair f A uB.id ∧
      (f.status = FriendStatus.pending ∨ f.status = FriendStatus.accepted)) :
    sendFriendRequest db A (some e) none hasUsernameCol newId =
      (Except.error 409, db) := by
  obtain ⟨f, hmem, hmatch, _⟩ := hex
  have hsome : (friendshipQueries.checkFriendship db A uB.id uB.id A).isSome := by
    unfold friendshipQueries.checkFriendship
    rw [List.find?_isSome]
    exact ⟨f, hmem, (checkFriendship_pred_iff f A uB.id).mpr hmatch⟩
  obtain ⟨g, hg⟩ := Option.isSome_iff_exists.mp hsome
  unfold sendFriendRequest
  rw [if_neg (by simp)]
  simp only [hfind, hg]
  rw [if_neg hne]

/-- C6 witness: users 1 and 2 with a pending row (1,2); a repeat
request by 1 (resolving 2 by email) gives 409 and leaves the
database unchanged. -/
theorem C6_duplicate_friend_request_conflict_witness :
    sendFriendRequest
      ⟨[⟨1, "Ann", none, "ann@x.com", "h1", false, 0⟩,
        ⟨2, "Bo", none, "bo@x.com", "h2", false, 0⟩],
       [], [⟨1, 1, 2, FriendStatus.pending⟩], [], [], [], [], [], []⟩
      1 (some "bo@x.com") none false 2 =
      (Except.error 409,
       ⟨[⟨1, "Ann", none, "ann@x.com", "h1", false, 0⟩,
         ⟨2, "Bo", none, "bo@x.com", "h2", false, 0⟩],
        [], [⟨1, 1, 2, FriendStatus.pending⟩], [], [], [], [], [], []⟩) :=
  C6_duplicate_friend_request_conflict
    ⟨[⟨1, "Ann", none, "ann@x.com", "h1", false, 0⟩,
      ⟨2, "Bo", none, "bo@x.com", "h2", false, 0⟩],
     [], [⟨1, 1, 2, FriendStatus.pending⟩], [], [], [], [], [], []⟩
    1 "bo@x.com" ⟨2, "Bo", none, "bo@x.com", "h2", false, 0⟩ false 2
    (by decide) (by decide) (by decide)

/-! ## C7 — reaction uniqueness per (comment, user, emoji) -/

/-- C7: re-adding the exact (comment, user, emoji) triple is answered
409 with the database unchanged, while the same user reacting to the
same comment with a different, not-yet-used emoji succeeds and appends
exactly that reaction row. -/
theorem C7_reaction_uniqueness (db : DB) (u c : Nat) (e e2 : String) (n n2 : Nat)
    (hc : c ≠ 0) (he : e ≠ "") (he2 : e2 ≠ "")
    (hdup : ∃ r ∈ db.reactions, r.comment_id = c ∧ r.user_id = u ∧ r.emoji = e)
    (hcm : ∃ x ∈ db.comments, x.id = c)
    (hus : ∃ x ∈ db.users, x.id = u)
    (hnew : ¬ ∃ r ∈ db.reactions, r.comment_id = c ∧ r.user_id = u ∧ r.emoji = e2) :
    addReaction db u c e n = (Except.error 409, db) ∧
    addReaction db u c e2 n2 =
      (Except.ok (), { db with reactions := db.reactions ++ [⟨n2, c, u, e2⟩] }) := by
  constructor
  · unfold addReaction
    rw [if_neg (by tauto)]
    rw [if_pos]
    rw [List.any_eq_true]
    obtain ⟨r, hmem, hr⟩ := hdup
    exact ⟨r, hmem, by simp [hr.1, hr.2.1, hr.2.2]⟩
  · unfold addReaction
    rw [if_neg (by tauto)]
    rw [if_neg]
    · rw [if_neg]
      rw [Bool.not_eq_true', Bool.not_eq_false]
      obtain ⟨x, hx, hxc⟩ := hcm
      obtain ⟨y, hy, hyu⟩ := hus
      rw [Bool.and_eq_true, List.any_eq_true, List.any_eq_true]
      exact ⟨⟨x, hx, by simp [hxc]⟩, ⟨y, hy, by simp [hyu]⟩⟩
    · rw [List.any_eq_true]
      intro ⟨r, hmem, hr⟩
      simp only [decide_eq_true_eq] at hr
      exact hnew ⟨r, hmem, hr⟩

/-- C7 witness: user 1 already reacted "🎉" on comment 5; repeating it
gives 409 and changes nothing, while "👍" succeeds and appends. -/
theorem C7_reaction_uniqueness_witness :
    addReaction
      ⟨[⟨1, "Ann", none, "ann@x.com", "h1", false, 0⟩],
       [], [], [⟨5, 1, 1, 0, 0, "hi", false⟩], [⟨1, 5, 1, "🎉"⟩], [], [], [], []⟩
      1 5 "🎉" 2 =
      (Except.error 409,
       ⟨[⟨1, "Ann", none, "ann@x.com", "h1", false, 0⟩],
        [], [], [⟨5, 1, 1, 0, 0, "hi", false⟩], [⟨1, 5, 1, "🎉"⟩], [], [], [], []⟩) ∧
    addReaction
      ⟨[⟨1, "Ann", none, "ann@x.com", "h1", false, 0⟩],
       [], [], [⟨5, 1, 1, 0, 0, "hi", false⟩], [⟨1, 5, 1, "🎉"⟩], [], [], [], []⟩
      1 5 "👍" 2 =
      (Except.ok (),
       ⟨[⟨1, "Ann", none, "ann@x.com", "h1", false, 0⟩],
        [], [], [⟨5, 1, 1, 0, 0, "hi", false⟩],
        [⟨1, 5, 1, "🎉"⟩, ⟨2, 5, 1, "👍"⟩], [], [], [], []⟩) :=
  C7_reaction_uniqueness
    ⟨[⟨1, "Ann", none, "ann@x.com", "h1", false, 0⟩],
     [], [], [⟨5, 1, 1, 0, 0, "hi", false⟩], [⟨1, 5, 1, "🎉"⟩], [], [], [], []⟩
    1 5 "🎉" "👍" 2 2
    (by decide) (by decide) (by decide) (by decide) (by decide) (by decide) (by decide)

/-! ## C8 — admin analytics counts -/

/-- Filtering a user list on the admin flag being unset and on it
being set partitions the list. -/
theorem length_filter_admin_partition (l : List User) :
    (l.filter (fun u => u.is_admin = false)).length +
      (l.filter (fun u => u.is_admin = true)).length = l.length := by
  induction l with
  | nil => rfl
  | cons u t ih =>
    cases h : u.is_admin <;>
      simp [List.filter, h, ← ih, Nat.add_assoc, Nat.add_comm, Nat.add_left_comm]

/-- C8: the analytics user count counts exactly the users whose
`is_admin` flag is unset (together with the admin rows it partitions
the users table), and the combined comment count is the number of card
comments plus the number of group comments. -/
theorem C8_admin_analytics_counts (db : DB) :
    (adminAnalytics db).totalUsers =
      (db.users.filter (fun u => u.is_admin = false)).length ∧
    (adminAnalytics db).totalUsers +
      (db.users.filter (fun u => u.is_admin = true)).length = db.users.length ∧
    (adminAnalytics db).totalComments = db.comments.length + db.group_comments.length :=
  ⟨rfl, length_filter_admin_partition db.users, rfl⟩

/-! ## C10 — card update never touches the stored size -/

/-- C10: when the caller already has a card row, saving with any
payload (any `size`, any grid/completion data, present or absent)
leaves every card row's id, owner, size and creation timestamp — in
particular the stored size — unchanged; only grid data, completion
data and the update timestamp can differ. -/
theorem C10_card_update_preserves_size (db : DB) (userId size : Nat)
    (grid completed : Option String) (now newId : Nat)
    (hEx : ∃ cd ∈ db.cards, cd.user_id = userId) :
    ((saveCard db userId size grid completed now newId).2.cards).map
        (fun cd => (cd.id, cd.user_id, cd.size, cd.created_at)) =
      db.cards.map (fun cd => (cd.id, cd.user_id, cd.size, cd.created_at)) := by
  unfold saveCard
  by_cases hbad : size = 0 ∨ grid = none ∨ completed = none
  · rw [if_pos hbad]
  · rw [if_neg hbad]
    have hsome : (cardQueries.findByUserId db userId).isSome := by
      unfold cardQueries.findByUserId
      rw [List.find?_isSome]
      obtain ⟨cd, hmem, hcd⟩ := hEx
      exact ⟨cd, hmem, by simp [hcd]⟩
    obtain ⟨cd0, hcd0⟩ := Option.isSome_iff_exists.mp hsome
    rw [hcd0]
    simp only [List.map_map]
    refine List.map_congr_left ?_
    intro cd _
    by_cases h : cd.user_id = userId <;> simp [h]

/-- C10 witness: user 1 has a 3×3 card; re-saving with size 5 and new
payloads keeps id/owner/size/created_at of every row. -/
theorem C10_card_update_preserves_size_witness :
    ((saveCard
        ⟨[], [⟨1, 1, 3, "g0", "c0", 10, 10⟩], [], [], [], [], [], [], []⟩
        1 5 (some "g1") (some "c1") 20 2).2.cards).map
        (fun cd => (cd.id, cd.user_id, cd.size, cd.created_at)) =
      [(1, 1, 3, 10)] :=
  C10_card_update_preserves_size
    ⟨[], [⟨1, 1, 3, "g0", "c0", 10, 10⟩], [], [], [], [], [], [], []⟩
    1 5 (some "g1") (some "c1") 20 2 (by decide)

/-! ## C9 — reaction listing has no relationship gate -/

/-- The names grouped under emoji `e` in the handler's accumulator. -/
def bucket (l : List (String × List String)) (e : String) : List String :=
  ((l.find? (fun p => decide (p.1 = e))).map Prod.snd).getD []

theorem bucket_insertGrouped_self (acc : List (String × List String))
    (e n : String) : bucket (insertGrouped acc e n) e = bucket acc e ++ [n] := by
  induction acc with
  | nil => simp [insertGrouped, bucket, List.find?]
  | cons hd rest ih =>
    obtain ⟨e0, ns⟩ := hd
    by_cases h : e0 = e
    · subst h
      simp [insertGrouped, bucket, List.find?]
    · simp only [bucket] at ih
      simp [insertGrouped, bucket, List.find?, h, ih]

theorem bucket_insertGrouped_ne (acc : List (String × List String))
    (e' e n : String) (hne : e' ≠ e) :
    bucket (insertGrouped acc e' n) e = bucket acc e := by
  induction acc with
  | nil => simp [insertGrouped, bucket, List.find?, hne]
  | cons hd rest ih =>
    obtain ⟨e0, ns⟩ := hd
    by_cases h : e0 = e'
    · subst h
      simp [insertGrouped, bucket, List.find?, hne]
    · by_cases h2 : e0 = e
      · simp [insertGrouped, bucket, List.find?, h, h2, Ne.symm hne]
      · simp only [bucket] at ih
        simp [insertGrouped, bucket, List.find?, h, h2, ih]

/-- One grouping step never removes a name from any bucket. -/
theorem mem_bucket_insertGrouped (acc : List (String × List String))
    (e e' n n' : String) (h : n ∈ bucket acc e) :
    n ∈ bucket (insertGrouped acc e' n') e := by
  by_cases he : e' = e
  · subst he
    rw [bucket_insertGrouped_self]
    exact List.mem_append_left _ h
  · rw [bucket_insertGrouped_ne _ _ _ _ he]
    exact h

/-- A (reaction, name) pair fed to the grouping fold ends up in the
bucket of its emoji. -/
theorem mem_bucket_foldl (rs : List (Reaction × String)) (r : Reaction)
    (nm : String) :
    ∀ acc : List (String × List String),
      ((r, nm) ∈ rs ∨ nm ∈ bucket acc r.emoji) →
      nm ∈ bucket (rs.foldl (fun a rn => insertGrouped a rn.1.emoji rn.2) acc)
        r.emoji := by
  induction rs with
  | nil =>
    intro acc h
    rcases h with h | h
    · cases h
    · exact h
  | cons hd tl ih =>
    intro acc h
    rw [List.foldl_cons]
    rcases h with h | h
    · rcases List.mem_cons.mp h with h | h
      · refine ih _ (Or.inr ?_)
        rw [← h]
        rw [bucket_insertGrouped_self]
        exact List.mem_append_right _ (List.mem_singleton.mpr rfl)
      · exact ih _ (Or.inl h)
    · exact ih _ (Or.inr (mem_bucket_insertGrouped _ _ _ _ _ h))

/-- C9: the reaction listing for a comment is identical for every
authenticated requester and for every content of the friendships,
comments and cards tables — no friendship, ownership or privacy check
relates the requester to the comment — and every reaction on the
comment contributes its reactor's name to the bucket of its emoji,
private or unrelated though the underlying comment may be. -/
theorem C9_reactions_listing_unchecked (db : DB) (c : Nat) :
    (∀ u1 u2 : Nat, getReactions db u1 c = getReactions db u2 c) ∧
    (∀ (u : Nat) (fs : List Friendship) (cs : List Comment) (cds : List Card),
      getReactions { db with friendships := fs, comments := cs, cards := cds } u c =
        getReactions db u c) ∧
    (∀ (u : Nat) (r : Reaction), r ∈ db.reactions → r.comment_id = c →
      ∀ usr : User, db.users.find? (fun x => decide (x.id = r.user_id)) = some usr →
      ∀ L, getReactions db u c = Except.ok L → usr.name ∈ bucket L r.emoji) := by
  refine ⟨fun u1 u2 => rfl, fun u fs cs cds => rfl, ?_⟩
  intro u r hmem hc usr hfind L hok
  have hL : L = (reactionQueries.getByComment db c).foldl
      (fun a rn => insertGrouped a rn.1.emoji rn.2) [] :=
    (Except.ok.inj hok).symm
  subst hL
  refine mem_bucket_foldl _ r usr.name _ (Or.inl ?_)
  unfold reactionQueries.getByComment
  refine List.mem_filterMap.mpr ⟨r, List.mem_filter.mpr ⟨hmem, by simp [hc]⟩, ?_⟩
  rw [hfind]
  rfl

/-- Demo state for C9: a private comment (id 5) by user 1 on user 1's
own card, reacted to by user 1; user 2 has no relationship to user 1,
yet the listing for user 2 equals the listing for anyone else and
carries Ann's name. -/
def reactionsDemoDB : DB :=
  ⟨[⟨1, "Ann", none, "ann@x.com", "h1", false, 0⟩,
    ⟨2, "Bo", none, "bo@x.com", "h2", false, 0⟩],
   [], [], [⟨5, 1, 1, 0, 0, "secret", true⟩], [⟨1, 5, 1, "🎉"⟩], [], [], [], []⟩

/-- C9 witness: requester 2 — a stranger to user 1 — receives the same
listing as requester 7, and Ann's name appears under "🎉". -/
theorem C9_reactions_listing_unchecked_witness :
    getReactions reactionsDemoDB 2 5 = getReactions reactionsDemoDB 7 5 ∧
    getReactions reactionsDemoDB 2 5 = Except.ok [("🎉", ["Ann"])] ∧
    "Ann" ∈ bucket [("🎉", ["Ann"])] "🎉" := by
  refine ⟨(C9_reactions_listing_unchecked reactionsDemoDB 5).1 2 7, rfl, ?_⟩
  exact (C9_reactions_listing_unchecked reactionsDemoDB 5).2.2 2 ⟨1, 5, 1, "🎉"⟩
    (by decide) rfl ⟨1, "Ann", none, "ann@x.com", "h1", false, 0⟩ rfl
    [("🎉", ["Ann"])] rfl

/-! ## C1 — leaving a group as its sole admin -/

/-- Concrete group state for C1: group 1 whose only accepted admin is
user 1, with a second accepted member (user 2). -/
def soleAdminDB : DB :=
  ⟨[⟨1, "Ann", none, "ann@x.com", "h1", false, 0⟩,
    ⟨2, "Bo", none, "bo@x.com", "h2", false, 0⟩],
   [], [], [], [],
   [⟨1, "resolutions", 1⟩],
   [⟨1, 1, 1, Role.admin, MemberStatus.accepted⟩,
    ⟨2, 1, 2, Role.member, MemberStatus.accepted⟩],
   [], []⟩

/-- C1 counterexample: user 1 is the sole admin of group 1 and another
member remains, so the leave is refused — but with status 400
(database.js:1711), not the 409 Conflict the claim states. -/
theorem C1_counterexample :
    groupQueries.getMember soleAdminDB 1 1 =
      some ⟨1, 1, 1, Role.admin, MemberStatus.accepted⟩ ∧
    ((groupQueries.getGroupMembers soleAdminDB 1).filter
      (fun m => decide (m.role = Role.admin))).length = 1 ∧
    (groupQueries.getGroupMembers soleAdminDB 1).length = 2 ∧
    (leaveGroup soleAdminDB 1 1).1 = Except.error 400 ∧
    (Except.error 400 : Except Nat Unit) ≠ Except.error 409 := by
  refine ⟨rfl, rfl, rfl, rfl, ?_⟩
  intro h
  simp at h

/-- C1 (amended): invoked by the sole (accepted) admin of a group that
still has another accepted member, the leave-group operation fails
with status 400 BadRequest ("Cannot leave: you are the only admin...")
and the database — in particular the caller's membership row — is
unchanged. -/
theorem C1_leaveGroup_soleAdmin_blocked (db : DB) (userId groupId : Nat)
    (m : GroupMember)
    (hm : groupQueries.getMember db groupId userId = some m)
    (hrole : m.role = Role.admin)
    (hadmin : ((groupQueries.getGroupMembers db groupId).filter
        (fun x => decide (x.role = Role.admin))).length = 1)
    (hsize : 1 < (groupQueries.getGroupMembers db groupId).length) :
    leaveGroup db userId groupId = (Except.error 400, db) := by
  unfold leaveGroup
  rw [hm]
  exact if_pos ⟨hrole, hadmin, hsize⟩

/-- C1 witness: the amended statement at the concrete sole-admin
state. -/
theorem C1_leaveGroup_soleAdmin_blocked_witness :
    leaveGroup soleAdminDB 1 1 = (Except.error 400, soleAdminDB) :=
  C1_leaveGroup_soleAdmin_blocked soleAdminDB 1 1
    ⟨1, 1, 1, Role.admin, MemberStatus.accepted⟩ (by decide) rfl (by decide) (by decide)
